import Mathlib

/-!
# Shopping cart system: shallow embedding and verification

A shallow embedding of `src/ShoppingCart.js` (class `ShoppingCart`).

Modelling choices:
* JS numbers are embedded as exact rationals `ℚ`; `Math.round x` is
  `⌊x + 1/2⌋`, which is Mathlib's `round` (both send ties toward `+∞`).
* The private `#items` `Map` is an insertion-ordered association list
  `List (String × Item)`; `Map.has/get/set/delete` become first-match
  lookup/update/erase (keys are unique, so first-match agrees with the map).
* Mutating methods return `Bool × ShoppingCart` (the JS boolean result and
  the state after the call); queries are pure functions of the state.
* `typeof`-based rejections of non-string / non-number arguments are ruled
  out by Lean's types; `Number.isInteger q` on a rational becomes
  `q.den = 1`.
* `toUpperCase` / `trim` are modelled on the character list (ASCII
  upper-casing, whitespace per `Char.isWhitespace`), and `toFixed(2)`
  extracts the sign first and then rounds the magnitude, as ECMA-262
  prescribes.
-/

/-- A stored line item: `{ price, quantity }` in the JS `Map`. -/
structure Item where
  price : ℚ
  quantity : ℤ
deriving DecidableEq, Repr

/-- The cart state: the private fields `#items` and `#appliedDiscount`. -/
structure ShoppingCart where
  items : List (String × Item)
  appliedDiscount : ℚ
deriving DecidableEq, Repr

namespace ShoppingCart

/-- `new ShoppingCart()`: empty item map, zero discount. -/
def init : ShoppingCart := ⟨[], 0⟩

/-- `ShoppingCart.TAX_RATE = 0.10`. -/
def TAX_RATE : ℚ := 10 / 100

/-- `Math.round(x * 100) / 100`, the 2-decimal rounding used throughout. -/
def round2 (x : ℚ) : ℚ := (round (x * 100) : ℚ) / 100

/-- `ShoppingCart.DISCOUNT_CODES` lookup: `SAVE10 -> 0.10`, `SAVE20 -> 0.20`. -/
def DISCOUNT_CODES (c : String) : Option ℚ :=
  if c = "SAVE10" then some (10 / 100)
  else if c = "SAVE20" then some (20 / 100)
  else none

/-- JS `String.prototype.trim`, modelled on the underlying character list:
drop leading and trailing whitespace. -/
def trimChars (l : List Char) : List Char :=
  ((l.dropWhile Char.isWhitespace).reverse.dropWhile Char.isWhitespace).reverse

/-- `code.toUpperCase().trim()` from `applyDiscount` (ASCII upper-casing). -/
def normalizeCode (code : String) : String :=
  String.mk (trimChars (code.data.map Char.toUpper))

/-- `this.#items.has(product)` / `this.#items.get(product)`: first-match
lookup in the association list. -/
def lookupItem (p : String) : List (String × Item) → Option Item
  | [] => none
  | (k, it) :: rest => if k = p then some it else lookupItem p rest

/-- `#validateInputs(product, price, quantity)`: non-empty product,
non-negative price, positive integer quantity. -/
def validateInputs (product : String) (price quantity : ℚ) : Bool :=
  if product = "" then false
  else if price < 0 then false
  else if quantity.den ≠ 1 ∨ quantity ≤ 0 then false
  else true

/-- `addItem`'s existing-product branch:
`currentItem.quantity += quantity` on the (unique) entry with key `p`. -/
def updateQty (p : String) (d : ℤ) : List (String × Item) → List (String × Item)
  | [] => []
  | (k, it) :: rest =>
    if k = p then (k, ⟨it.price, it.quantity + d⟩) :: rest
    else (k, it) :: updateQty p d rest

/-- `updateQuantity`'s effect: `this.#items.get(product).quantity = quantity`. -/
def setQty (p : String) (n : ℤ) : List (String × Item) → List (String × Item)
  | [] => []
  | (k, it) :: rest =>
    if k = p then (k, ⟨it.price, n⟩) :: rest
    else (k, it) :: setQty p n rest

/-- `removeItem`'s effect: `this.#items.delete(product)`. -/
def eraseKey (p : String) : List (String × Item) → List (String × Item)
  | [] => []
  | (k, it) :: rest => if k = p then rest else (k, it) :: eraseKey p rest

/-- `addItem(product, price, quantity)`. -/
def addItem (product : String) (price quantity : ℚ) (c : ShoppingCart) :
    Bool × ShoppingCart :=
  if validateInputs product price quantity then
    if (lookupItem product c.items).isSome then
      (true, { c with items := updateQty product quantity.num c.items })
    else
      (true, { c with items := c.items ++ [(product, ⟨price, quantity.num⟩)] })
  else
    (false, c)

/-- `removeItem(product)`. -/
def removeItem (product : String) (c : ShoppingCart) : Bool × ShoppingCart :=
  if product = "" then (false, c)
  else if (lookupItem product c.items).isNone then (false, c)
  else (true, { c with items := eraseKey product c.items })

/-- `updateQuantity(product, quantity)`. -/
def updateQuantity (product : String) (quantity : ℚ) (c : ShoppingCart) :
    Bool × ShoppingCart :=
  if product = "" then (false, c)
  else if (lookupItem product c.items).isNone then (false, c)
  else if quantity.den ≠ 1 ∨ quantity ≤ 0 then (false, c)
  else (true, { c with items := setQty product quantity.num c.items })

/-- `getSubtotal()`: sum of `price * quantity`, rounded to 2 decimals. -/
def getSubtotal (c : ShoppingCart) : ℚ :=
  round2 ((c.items.map fun pr => pr.2.price * (pr.2.quantity : ℚ)).sum)

/-- `applyDiscount(code)`. -/
def applyDiscount (code : String) (c : ShoppingCart) : Bool × ShoppingCart :=
  if code = "" then (false, c)
  else
    match DISCOUNT_CODES (normalizeCode code) with
    | none => (false, c)
    | some pct => (true, { c with appliedDiscount := getSubtotal c * pct })

/-- `getTotal()`: `round2` of `(subtotal - discount) + (subtotal - discount) * TAX_RATE`. -/
def getTotal (c : ShoppingCart) : ℚ :=
  round2 ((getSubtotal c - c.appliedDiscount)
    + (getSubtotal c - c.appliedDiscount) * TAX_RATE)

/-- `getDiscount()`: the applied discount, rounded to 2 decimals. -/
def getDiscount (c : ShoppingCart) : ℚ := round2 c.appliedDiscount

/-- `getTax()`: tax on the post-discount amount, rounded to 2 decimals. -/
def getTax (c : ShoppingCart) : ℚ :=
  round2 ((getSubtotal c - c.appliedDiscount) * TAX_RATE)

/-- One element of the `getCartItems()` snapshot. -/
structure CartItemView where
  product : String
  price : ℚ
  quantity : ℤ
  itemTotal : ℚ
deriving DecidableEq, Repr

/-- `getCartItems()`: snapshot list in insertion order, `itemTotal` rounded. -/
def getCartItems (c : ShoppingCart) : List CartItemView :=
  c.items.map fun pr =>
    ⟨pr.1, pr.2.price, pr.2.quantity, round2 (pr.2.price * (pr.2.quantity : ℚ))⟩

/-- `getItemCount()`: number of distinct products. -/
def getItemCount (c : ShoppingCart) : ℕ := c.items.length

/-- `clearCart()`. -/
def clearCart (_ : ShoppingCart) : ShoppingCart := ⟨[], 0⟩

/-- Digits of `toFixed(2)` for a non-negative number of cents `n`. -/
def fixed2Digits (n : ℕ) : String :=
  toString (n / 100) ++ "." ++ (if n % 100 < 10 then "0" else "") ++ toString (n % 100)

/-- JS `x.toFixed(2)`: per ECMA-262, the sign is extracted first and the
magnitude is rounded to the nearest hundredth, ties toward `+∞`. -/
def toFixed2 (x : ℚ) : String :=
  if x < 0 then "-" ++ fixed2Digits (round (-x * 100)).toNat
  else fixed2Digits (round (x * 100)).toNat

/-- One item line of `getSummary()`:
`` `${item.product}: $${item.price.toFixed(2)} x ${item.quantity} = $${item.itemTotal.toFixed(2)}\n` ``. -/
def itemLine (v : CartItemView) : String :=
  v.product ++ ": $" ++ toFixed2 v.price ++ " x " ++ toString v.quantity
    ++ " = $" ++ toFixed2 v.itemTotal ++ "\n"

/-- `getSummary()`. -/
def getSummary (c : ShoppingCart) : String :=
  if getItemCount c = 0 then "Cart is empty"
  else
    "=== CART SUMMARY ===\n"
    ++ String.join ((getCartItems c).map itemLine)
    ++ "\nSubtotal: $" ++ toFixed2 (getSubtotal c) ++ "\n"
    ++ (if 0 < getDiscount c then "Discount: -$" ++ toFixed2 (getDiscount c) ++ "\n" else "")
    ++ "Tax (10%): $" ++ toFixed2 (getTax c) ++ "\n"
    ++ "==================\n"
    ++ "TOTAL: $" ++ toFixed2 (getTotal c)

end ShoppingCart

namespace SpecClaims

open ShoppingCart

/-- Claim C1's asserted composition for the total: independently round the
post-discount amount and the tax, then round their sum. -/
def claimTotalC1 (c : ShoppingCart) : ℚ :=
  round2 (round2 (getSubtotal c - c.appliedDiscount)
    + round2 ((getSubtotal c - c.appliedDiscount) * (10 / 100)))

/-- A cart reached by valid operations only: subtotal `0.05`, then `SAVE10`
(discount `0.005`), then another `0.01` item (subtotal `0.06`). -/
def cartC1 : ShoppingCart :=
  (addItem "B" (1/100) 1 (applyDiscount "SAVE10" (addItem "A" (5/100) 1 init).2).2).2

/-- A simple populated cart used as a concrete witness state. -/
def cartW : ShoppingCart := ⟨[("A", ⟨100, 1⟩)], 0⟩

/-- Claim C9's asserted summary for a non-empty cart, following the spec's
words: item lines, blank line, subtotal, optional discount, tax, separator,
total — and nothing else. -/
def specSummaryBodyC9 (c : ShoppingCart) : String :=
  String.join ((getCartItems c).map itemLine)
    ++ "\nSubtotal: $" ++ toFixed2 (getSubtotal c) ++ "\n"
    ++ (if 0 < getDiscount c then "Discount: -$" ++ toFixed2 (getDiscount c) ++ "\n" else "")
    ++ "Tax (10%): $" ++ toFixed2 (getTax c) ++ "\n"
    ++ "==================\n"
    ++ "TOTAL: $" ++ toFixed2 (getTotal c)

/-- Claim C9's asserted value of `getSummary`. -/
def specSummaryC9 (c : ShoppingCart) : String :=
  if getItemCount c = 0 then "Cart is empty" else specSummaryBodyC9 c

/-- A cart with one item, reached by a valid `addItem`. -/
def cartC9 : ShoppingCart := (addItem "A" 1 1 init).2

/-- C10 step 1: add an item worth `100`. -/
def stepC10a : Bool × ShoppingCart := addItem "Laptop" 100 1 init

/-- C10 step 2: apply `SAVE20` (discount `20`). -/
def stepC10b : Bool × ShoppingCart := applyDiscount "SAVE20" stepC10a.2

/-- C10 step 3: remove the only item (discount stays `20`). -/
def stepC10c : Bool × ShoppingCart := removeItem "Laptop" stepC10b.2

end SpecClaims

namespace ShoppingCart

/-- `lookupItem` after `updateQty` at the same key: the quantity grew by `d`,
the price is untouched. -/
theorem lookupItem_updateQty (p : String) (d : ℤ) (l : List (String × Item)) :
    lookupItem p (updateQty p d l)
      = (lookupItem p l).map fun it => ⟨it.price, it.quantity + d⟩ := by
  induction l with
  | nil => rfl
  | cons hd tl ih =>
    obtain ⟨k, it⟩ := hd
    by_cases hk : k = p
    · simp [updateQty, lookupItem, hk]
    · simp [updateQty, lookupItem, hk, ih]

/-- `updateQty` preserves the number of entries. -/
theorem length_updateQty (p : String) (d : ℤ) (l : List (String × Item)) :
    (updateQty p d l).length = l.length := by
  induction l with
  | nil => rfl
  | cons hd tl ih =>
    obtain ⟨k, it⟩ := hd
    by_cases hk : k = p <;> simp [updateQty, hk, ih]

/-- Looking up a freshly appended key that was absent before. -/
theorem lookupItem_append_self (p : String) (it : Item) (l : List (String × Item))
    (h : lookupItem p l = none) : lookupItem p (l ++ [(p, it)]) = some it := by
  induction l with
  | nil => simp [lookupItem]
  | cons hd tl ih =>
    obtain ⟨k, it2⟩ := hd
    by_cases hk : k = p
    · simp [lookupItem, hk] at h
    · simp only [lookupItem, hk] at h
      simp [lookupItem, hk, ih h]

/-- `lookupItem` after `setQty` at the same key: the quantity is replaced,
the price is untouched. -/
theorem lookupItem_setQty (p : String) (n : ℤ) (l : List (String × Item)) :
    lookupItem p (setQty p n l)
      = (lookupItem p l).map fun it => ⟨it.price, n⟩ := by
  induction l with
  | nil => rfl
  | cons hd tl ih =>
    obtain ⟨k, it⟩ := hd
    by_cases hk : k = p
    · simp [setQty, lookupItem, hk]
    · simp [setQty, lookupItem, hk, ih]

/-- A successful lookup exhibits a member of the list with that key. -/
theorem lookupItem_some_mem (p : String) (it : Item) (l : List (String × Item))
    (h : lookupItem p l = some it) : (p, it) ∈ l := by
  induction l with
  | nil => simp [lookupItem] at h
  | cons hd tl ih =>
    obtain ⟨k, it2⟩ := hd
    by_cases hk : k = p
    · subst hk
      simp [lookupItem] at h
      simp [h]
    · simp only [lookupItem, hk, if_false] at h
      exact List.mem_cons_of_mem _ (ih h)

/-- `applyDiscount` only looks at the normalized code. -/
theorem applyDiscount_eq_norm (code : String) (c : ShoppingCart) :
    applyDiscount code c
      = match DISCOUNT_CODES (normalizeCode code) with
        | none => (false, c)
        | some pct => (true, { c with appliedDiscount := getSubtotal c * pct }) := by
  by_cases hc : code = ""
  · subst hc
    have : DISCOUNT_CODES (normalizeCode "") = none := by decide
    simp [applyDiscount, this]
  · simp [applyDiscount, hc]

end ShoppingCart

namespace SpecClaims

open ShoppingCart

section concreteEval

attribute [local semireducible] Rat.mul Rat.add Rat.sub Rat.inv

/-- C1: the claimed independently-rounded composition fails on the code:
in the reachable state `cartC1` (discount `0.005`, subtotal `0.06`) the code
returns `0.06` while the claimed formula gives `0.07`. -/
theorem claim_C1_counterexample : getTotal cartC1 ≠ claimTotalC1 cartC1 := by decide

/-- C10: a sequence of calls that all succeed — `addItem`, then
`applyDiscount "SAVE20"`, then `removeItem` of the only item — after which
`getTotal()` is negative: the discount is not bounded by the current
subtotal. -/
theorem claim_C10_total_negative :
    stepC10a.1 = true ∧ stepC10b.1 = true ∧ stepC10c.1 = true
      ∧ getTotal stepC10c.2 < 0 := by decide

end concreteEval

/-- C1 (amended): `getTotal()` applies a single 2-decimal rounding to the
unrounded post-discount amount plus the unrounded tax, i.e. it equals
`round2((subtotal - discount) * (1 + TAX_RATE))` where `subtotal` is
`getSubtotal()` and `discount` the stored applied discount; the
post-discount amount and the tax are not independently rounded before
being combined. -/
theorem claim_C1_amended (c : ShoppingCart) :
    getTotal c = round2 ((getSubtotal c - c.appliedDiscount) * (1 + TAX_RATE)) := by
  unfold getTotal
  congr 1
  ring

/-- C2: a valid `addItem` returns `true`; on an existing product it adds the
quantity to the stored entry, keeps the stored price (first-write-wins) and
leaves `getItemCount()` unchanged; on a new product it appends a line item
with the given price and quantity and `getItemCount()` grows by 1. -/
theorem claim_C2_addItem_valid (c : ShoppingCart) (p : String) (price q : ℚ)
    (hp : p ≠ "") (hprice : 0 ≤ price) (hden : q.den = 1) (hq : 1 ≤ q) :
    (addItem p price q c).1 = true
    ∧ (∀ it, lookupItem p c.items = some it →
        lookupItem p (addItem p price q c).2.items
          = some ⟨it.price, it.quantity + q.num⟩
        ∧ getItemCount (addItem p price q c).2 = getItemCount c)
    ∧ (lookupItem p c.items = none →
        lookupItem p (addItem p price q c).2.items = some ⟨price, q.num⟩
        ∧ getItemCount (addItem p price q c).2 = getItemCount c + 1) := by
  have hval : validateInputs p price q = true := by
    unfold validateInputs
    rw [if_neg hp, if_neg (not_lt.mpr hprice), if_neg]
    push_neg
    exact ⟨hden, by linarith⟩
  refine ⟨?_, ?_, ?_⟩
  · unfold addItem
    rw [if_pos hval]
    split <;> rfl
  · intro it hit
    unfold addItem
    rw [if_pos hval, if_pos (by rw [hit]; rfl)]
    refine ⟨?_, ?_⟩
    · show lookupItem p (updateQty p q.num c.items) = _
      rw [lookupItem_updateQty, hit]
      rfl
    · show (updateQty p q.num c.items).length = c.items.length
      exact length_updateQty p q.num c.items
  · intro hnone
    unfold addItem
    rw [if_pos hval, if_neg (by rw [hnone]; simp)]
    refine ⟨?_, ?_⟩
    · exact lookupItem_append_self p _ c.items hnone
    · show (c.items ++ [(p, (⟨price, q.num⟩ : Item))]).length = c.items.length + 1
      simp

/-- C3: `addItem` with an empty product, negative price, non-integer or
non-positive quantity returns `false` and leaves the whole cart (items and
applied discount) unchanged; being a total function, it raises no error. -/
theorem claim_C3_addItem_invalid (c : ShoppingCart) (p : String) (price q : ℚ)
    (h : p = "" ∨ price < 0 ∨ q.den ≠ 1 ∨ q ≤ 0) :
    addItem p price q c = (false, c) := by
  have hval : validateInputs p price q = false := by
    unfold validateInputs
    split_ifs with h1 h2 h3 <;> try rfl
    rcases h with h | h | h | h
    · exact absurd h h1
    · exact absurd h h2
    · exact absurd (Or.inl h) h3
    · exact absurd (Or.inr h) h3
  unfold addItem
  rw [hval]
  simp

/-- C4: `applyDiscount` with a code normalizing to `SAVE10`/`SAVE20` returns
`true` and overwrites the applied discount with the current subtotal times
10%/20%; any other code returns `false` and changes nothing. -/
theorem claim_C4_applyDiscount (c : ShoppingCart) (code : String) :
    (normalizeCode code = "SAVE10" →
      applyDiscount code c
        = (true, { c with appliedDiscount := getSubtotal c * (10 / 100) }))
    ∧ (normalizeCode code = "SAVE20" →
      applyDiscount code c
        = (true, { c with appliedDiscount := getSubtotal c * (20 / 100) }))
    ∧ (normalizeCode code ≠ "SAVE10" → normalizeCode code ≠ "SAVE20" →
      applyDiscount code c = (false, c)) := by
  refine ⟨?_, ?_, ?_⟩
  · intro h
    rw [applyDiscount_eq_norm, h]
    rfl
  · intro h
    rw [applyDiscount_eq_norm, h]
    rfl
  · intro h1 h2
    rw [applyDiscount_eq_norm]
    have : DISCOUNT_CODES (normalizeCode code) = none := by
      unfold DISCOUNT_CODES
      rw [if_neg h1, if_neg h2]
    rw [this]

/-- C5: `applyDiscount` is invariant under casing and surrounding-whitespace
variants of the code — any two codes with the same normalization (trimmed,
upper-cased) give the same result and the same resulting cart state. -/
theorem claim_C5_applyDiscount_normalized (c : ShoppingCart) (code1 code2 : String)
    (h : normalizeCode code1 = normalizeCode code2) :
    applyDiscount code1 c = applyDiscount code2 c := by
  rw [applyDiscount_eq_norm, applyDiscount_eq_norm, h]

/-- C6: no item mutation touches the applied discount — `addItem`,
`removeItem` and `updateQuantity` (with any arguments, valid or not) leave
`#appliedDiscount` exactly as it was. -/
theorem claim_C6_discount_frame (c : ShoppingCart) (p : String) (price q q2 : ℚ) :
    (addItem p price q c).2.appliedDiscount = c.appliedDiscount
    ∧ (removeItem p c).2.appliedDiscount = c.appliedDiscount
    ∧ (updateQuantity p q2 c).2.appliedDiscount = c.appliedDiscount := by
  refine ⟨?_, ?_, ?_⟩
  · unfold addItem
    split_ifs <;> rfl
  · unfold removeItem
    split_ifs <;> rfl
  · unfold updateQuantity
    split_ifs <;> rfl

/-- C7: `removeItem` and `updateQuantity` on an absent product return `false`
and change nothing; `updateQuantity` on a present product (in a cart whose
keys are non-empty, per the data-model invariant) with a positive integer
quantity replaces the stored quantity — keeping the price — and returns
`true`. -/
theorem claim_C7_remove_update (c : ShoppingCart) (p : String) (q : ℚ)
    (hwf : ∀ pr ∈ c.items, pr.1 ≠ "") :
    (lookupItem p c.items = none →
      removeItem p c = (false, c) ∧ updateQuantity p q c = (false, c))
    ∧ (∀ it, lookupItem p c.items = some it → q.den = 1 → 0 < q →
        updateQuantity p q c = (true, { c with items := setQty p q.num c.items })
        ∧ lookupItem p (updateQuantity p q c).2.items
          = some ⟨it.price, q.num⟩) := by
  constructor
  · intro hnone
    constructor
    · unfold removeItem
      by_cases hp : p = ""
      · rw [if_pos hp]
      · rw [if_neg hp, if_pos (by rw [hnone]; rfl)]
    · unfold updateQuantity
      by_cases hp : p = ""
      · rw [if_pos hp]
      · rw [if_neg hp, if_pos (by rw [hnone]; rfl)]
  · intro it hit hden hq
    have hp : p ≠ "" := hwf (p, it) (lookupItem_some_mem p it c.items hit)
    have hcond : ¬(q.den ≠ 1 ∨ q ≤ 0) := by
      push_neg
      exact ⟨hden, hq⟩
    unfold updateQuantity
    rw [if_neg hp, if_neg (by rw [hit]; simp), if_neg hcond]
    refine ⟨rfl, ?_⟩
    show lookupItem p (setQty p q.num c.items) = _
    rw [lookupItem_setQty, hit]
    rfl

/-- C8: after `clearCart()` the cart reports zero items and zero discount,
whatever the prior state. -/
theorem claim_C8_clearCart (c : ShoppingCart) :
    getItemCount (clearCart c) = 0 ∧ getDiscount (clearCart c) = 0 := by
  constructor
  · rfl
  · show round2 ((0 : ℚ)) = 0
    unfold round2
    norm_num

/-- C9 (amended): `getSummary()` on an empty cart is the fixed message, and
on a non-empty cart is exactly the claimed item/subtotal/discount/tax/total
format *preceded by a `=== CART SUMMARY ===` header line*; it is a pure
function of the state. -/
theorem claim_C9_amended (c : ShoppingCart) :
    getSummary c
      = if getItemCount c = 0 then "Cart is empty"
        else "=== CART SUMMARY ===\n" ++ specSummaryBodyC9 c := by
  unfold getSummary specSummaryBodyC9
  split
  · rfl
  · simp only [String.append_assoc]

end SpecClaims

namespace SpecClaims

open ShoppingCart

section witnessEval

attribute [local semireducible] Rat.mul Rat.add Rat.sub Rat.inv

/-- C2 at concrete inputs: adding to the existing product `A` of `cartW`
accumulates quantity and keeps the stored price; adding a new product `B`
appends it. -/
theorem claim_C2_witness :
    (addItem "A" 7 2 cartW).1 = true
    ∧ (lookupItem "A" (addItem "A" 7 2 cartW).2.items
        = some ⟨(100 : ℚ), 1 + (2 : ℚ).num⟩
      ∧ getItemCount (addItem "A" 7 2 cartW).2 = getItemCount cartW)
    ∧ (lookupItem "B" (addItem "B" 7 2 cartW).2.items = some ⟨(7 : ℚ), (2 : ℚ).num⟩
      ∧ getItemCount (addItem "B" 7 2 cartW).2 = getItemCount cartW + 1) :=
  ⟨(claim_C2_addItem_valid cartW "A" 7 2 (by decide) (by decide) (by decide) (by decide)).1,
   (claim_C2_addItem_valid cartW "A" 7 2 (by decide) (by decide) (by decide)
      (by decide)).2.1 ⟨100, 1⟩ (by decide),
   (claim_C2_addItem_valid cartW "B" 7 2 (by decide) (by decide) (by decide)
      (by decide)).2.2 (by decide)⟩

/-- C3 at a concrete input: `addItem` with an empty product name fails and
leaves the cart untouched. -/
theorem claim_C3_witness : addItem "" 1 1 cartW = (false, cartW) :=
  claim_C3_addItem_invalid cartW "" 1 1 (Or.inl rfl)

/-- C4 at concrete inputs: `" save10"`, `"save20 "` and an unknown code on
`cartW`. -/
theorem claim_C4_witness :
    applyDiscount " save10" cartW
      = (true, { cartW with appliedDiscount := getSubtotal cartW * (10 / 100) })
    ∧ applyDiscount "save20 " cartW
      = (true, { cartW with appliedDiscount := getSubtotal cartW * (20 / 100) })
    ∧ applyDiscount "HELLO" cartW = (false, cartW) :=
  ⟨(claim_C4_applyDiscount cartW " save10").1 (by decide),
   (claim_C4_applyDiscount cartW "save20 ").2.1 (by decide),
   (claim_C4_applyDiscount cartW "HELLO").2.2 (by decide) (by decide)⟩

/-- C5 at a concrete input: `"SAVE10"` and `" save10 "` act identically. -/
theorem claim_C5_witness :
    applyDiscount "SAVE10" cartW = applyDiscount " save10 " cartW :=
  claim_C5_applyDiscount_normalized cartW "SAVE10" " save10 " (by decide)

/-- C7 at concrete inputs: the absent product `B` and the present product
`A` of `cartW`. -/
theorem claim_C7_witness :
    (removeItem "B" cartW = (false, cartW)
      ∧ updateQuantity "B" 5 cartW = (false, cartW))
    ∧ (updateQuantity "A" 5 cartW
        = (true, { cartW with items := setQty "A" (5 : ℚ).num cartW.items })
      ∧ lookupItem "A" (updateQuantity "A" 5 cartW).2.items
        = some ⟨(100 : ℚ), (5 : ℚ).num⟩) :=
  ⟨(claim_C7_remove_update cartW "B" 5 (by decide)).1 (by decide),
   (claim_C7_remove_update cartW "A" 5 (by decide)).2 ⟨100, 1⟩
     (by decide) (by decide) (by decide)⟩

/-- C9: on the one-item cart `cartC9` the code's summary differs from the
claimed format — the code prepends a `=== CART SUMMARY ===` header line. -/
theorem claim_C9_counterexample : getSummary cartC9 ≠ specSummaryC9 cartC9 := by
  decide

end witnessEval

end SpecClaims
